import Mathlib

/-!
Verification of the m5stickc-wisunhat plotting tools
(`src/plot/src/retrieve_plotdata.rs` and `src/plot/src/plotcharts.rs`)
against their natural-language specification.

Shallow embedding conventions:
* `DateTime<FixedOffset>` instants are embedded as `Int` seconds since the Unix
  epoch.  The timezone `Asia/Tokyo` is embedded as the fixed offset +09:00
  (its offset for every instant since 1951; the programs only handle telemetry
  recorded after 2022).
* `f64` measurement values are embedded as `Rat`.  The code only compares,
  selects minima/maxima and adds these values, operations whose outcomes agree
  with exact rational arithmetic on the stored decimal values.
* fallible Rust code (`anyhow::Result`, `PolarsResult`) is embedded as
  `Except String`, `Option<T>` as `Option`.
* stateful code (the orchestrator loop in `run`) is embedded as explicit state
  passing over a `LoopState`; the file system is a partial map from window
  start instants to written frames, and fetch / sleep side effects are logged
  in lists.
-/

namespace Wisun

/-- Seconds in one day. -/
def secondsPerDay : Int := 86400

/-- Fixed offset of the display timezone `Asia.Tokyo` (JST, +09:00), in
seconds. -/
def jstOffset : Int := 9 * 3600

/-! ## Throttle-to-delay mapping (retrieve_plotdata.rs, `run`, lines 331-335)

```rust
let permilli = (10 * throttle).clamp(0, 1000);
let millis = (10 * (1000 - permilli)).clamp(1, 10_000);
```
-/

/-- Rust `i32::clamp(lo, hi)`: `lo` if below, `hi` if above, else the value. -/
def clamp (x lo hi : Int) : Int := if x < lo then lo else if hi < x then hi else x

/-- Embedding of `let permilli = (10 * throttle).clamp(0, 1000)`. -/
def permilli (throttle : Int) : Int := clamp (10 * throttle) 0 1000

/-- Embedding of `let millis = (10 * (1000 - permilli)).clamp(1, 10_000)`:
the inter-window delay in milliseconds slept after each fetched window. -/
def millis (throttle : Int) : Int := clamp (10 * (1000 - permilli throttle)) 1 10000

/-- C2 counterexample: at `throttle = 100` the delay is 1 ms, not the 10 ms
minimum the claim states. -/
theorem millis_at_100_is_one_not_ten : millis 100 = 1 ∧ millis 100 ≠ 10 := by
  constructor <;> decide

/-- C2 (amended): the throttle-to-delay mapping yields exactly the minimum
delay of 1 ms at `throttle = 100`, the maximum delay of 10000 ms at
`throttle = 0`, and is monotonically non-increasing in throttle over
`[0, 100]`. -/
theorem millis_extremes_and_antitone :
    millis 100 = 1 ∧ millis 0 = 10000 ∧
      ∀ a b : Int, 0 ≤ a → a ≤ b → b ≤ 100 → millis b ≤ millis a := by
  refine ⟨by decide, by decide, ?_⟩
  intro a b h0 hab h100
  unfold millis permilli clamp
  split_ifs <;> omega

/-- Witness for C2 (amended) at the concrete throttles 0 and 100. -/
theorem millis_extremes_and_antitone_witness : millis 100 ≤ millis 0 :=
  millis_extremes_and_antitone.2.2 0 100 (by decide) (by decide) (by decide)

/-- C5: for every throttle in `[0, 100]` the computed inter-window delay lies
within `[1 ms, 10000 ms]`, is never zero, and strictly decreases as throttle
increases. -/
theorem millis_bounded_and_decreasing (a b : Int)
    (h0 : 0 ≤ a) (h1 : a ≤ 100) (h2 : 0 ≤ b) (h3 : b ≤ 100) :
    (1 ≤ millis a ∧ millis a ≤ 10000 ∧ millis a ≠ 0) ∧
      (a < b → millis b < millis a) := by
  unfold millis permilli clamp
  split_ifs <;> omega

/-- Witness for C5 at the concrete throttles 50 and 100. -/
theorem millis_bounded_and_decreasing_witness :
    ((1 ≤ millis 50 ∧ millis 50 ≤ 10000 ∧ millis 50 ≠ 0) ∧
      ((50 : Int) < 100 → millis 100 < millis 50)) :=
  millis_bounded_and_decreasing 50 100 (by decide) (by decide) (by decide) (by decide)

/-! ## Window Planner (retrieve_plotdata.rs, `jst_datetime_range` lines 223-249,
`dailies` lines 252-260) -/

/-- Floor of an instant to the midnight, in JST local time, of the JST
calendar day containing it.  This embeds
`NaiveDateTime::new(t.with_timezone(&Asia::Tokyo).date_naive(), 00:00:00)`
interpreted back in JST: local seconds are `t + jstOffset`, the local date
floor is floor division by 86400, and the resulting local midnight is mapped
back to an instant by subtracting the offset.  Lean `Int` division is
Euclidean, which coincides with floor division for the positive divisor. -/
def jstDayFloor (t : Int) : Int :=
  secondsPerDay * ((t + jstOffset) / secondsPerDay) - jstOffset

/-- Embedding of `jst_datetime_range`: floor the start of the inclusive range
to JST midnight and ceil the end to the following JST midnight
(`date_naive() + 1 day` at 00:00:00), returning the half-open instant range. -/
def jst_datetime_range (start stop : Int) : Int × Int :=
  (jstDayFloor start, jstDayFloor stop + secondsPerDay)

/-- Embedding of `dailies`: the window start instants `start, start + 1 day, …`
strictly below `stop`. -/
def dailies (start stop : Int) : List Int :=
  if start < stop then start :: dailies (start + secondsPerDay) stop else []
termination_by (stop - start).toNat
decreasing_by simp only [secondsPerDay]; omega

/-- Unfolding lemma: `dailies` over a range of exactly `n` days is the list of
the `n` consecutive day starts. -/
theorem dailies_closed_form (s : Int) (n : Nat) :
    dailies s (s + secondsPerDay * n) =
      (List.range n).map (fun i : Nat => s + secondsPerDay * (i : Int)) := by
  induction n generalizing s with
  | zero =>
      rw [dailies]
      simp
  | succ k ih =>
      rw [dailies]
      have hlt : s < s + secondsPerDay * (k + 1 : Nat) := by
        simp only [secondsPerDay]
        push_cast
        omega
      rw [if_pos hlt]
      have harg : s + secondsPerDay + secondsPerDay * (k : Nat)
          = s + secondsPerDay * ((k + 1 : Nat) : Int) := by push_cast; ring
      have := ih (s + secondsPerDay)
      rw [harg] at this
      rw [this, List.range_succ_eq_map]
      simp only [List.map_cons, List.map_map]
      refine List.cons_eq_cons.mpr ⟨by simp, ?_⟩
      apply List.map_congr_left
      intro i _
      simp only [Function.comp_apply, Nat.succ_eq_add_one]
      push_cast
      ring

/-- C4: for timestamps `a ≤ b` the planner floors `a` to JST local midnight,
ceils `b` to the following JST local midnight, and `dailies` enumerates the
ordered, gapless sequence of consecutive exactly-one-day windows covering that
range, nonempty even when `a = b` lies on a midnight boundary.  Determinism in
the two inputs is inherent: `jst_datetime_range` and `dailies` are functions of
them alone. -/
theorem window_planner_daily_cover (a b : Int) (hab : a ≤ b) :
    ∃ n : Nat, 0 < n ∧
      (jst_datetime_range a b).2 = (jst_datetime_range a b).1 + secondsPerDay * n ∧
      dailies (jst_datetime_range a b).1 (jst_datetime_range a b).2 =
        (List.range n).map
          (fun i : Nat => (jst_datetime_range a b).1 + secondsPerDay * (i : Int)) ∧
      (jst_datetime_range a b).1 ≤ a ∧ a < (jst_datetime_range a b).1 + secondsPerDay ∧
      b < (jst_datetime_range a b).2 ∧ (jst_datetime_range a b).2 ≤ b + secondsPerDay ∧
      ((jst_datetime_range a b).1 + jstOffset) % secondsPerDay = 0 := by
  have hdiv : (a + jstOffset) / 86400 ≤ (b + jstOffset) / 86400 := by omega
  refine ⟨((b + jstOffset) / 86400 - (a + jstOffset) / 86400 + 1).toNat, by omega, ?_, ?_, ?_⟩
  · simp only [jst_datetime_range, jstDayFloor, secondsPerDay, jstOffset]
    omega
  · have hn : (jst_datetime_range a b).2
        = (jst_datetime_range a b).1 +
          secondsPerDay * (((b + jstOffset) / 86400 - (a + jstOffset) / 86400 + 1).toNat : Int) := by
      simp only [jst_datetime_range, jstDayFloor, secondsPerDay, jstOffset]
      omega
    rw [hn, dailies_closed_form]
  · simp only [jst_datetime_range, jstDayFloor, secondsPerDay, jstOffset]
    omega

/-- Witness for C4 with `a = b = 1672498800`, the instant of the JST midnight
boundary 2023-01-01T00:00:00+09:00 (the single-window edge case). -/
theorem window_planner_daily_cover_witness :
    ∃ n : Nat, 0 < n ∧
      (jst_datetime_range 1672498800 1672498800).2
        = (jst_datetime_range 1672498800 1672498800).1 + secondsPerDay * n ∧
      dailies (jst_datetime_range 1672498800 1672498800).1
          (jst_datetime_range 1672498800 1672498800).2 =
        (List.range n).map
          (fun i : Nat =>
            (jst_datetime_range 1672498800 1672498800).1 + secondsPerDay * (i : Int)) ∧
      (jst_datetime_range 1672498800 1672498800).1 ≤ 1672498800 ∧
      (1672498800 : Int) < (jst_datetime_range 1672498800 1672498800).1 + secondsPerDay ∧
      (1672498800 : Int) < (jst_datetime_range 1672498800 1672498800).2 ∧
      (jst_datetime_range 1672498800 1672498800).2 ≤ 1672498800 + secondsPerDay ∧
      ((jst_datetime_range 1672498800 1672498800).1 + jstOffset) % secondsPerDay = 0 :=
  window_planner_daily_cover 1672498800 1672498800 (by decide)

/-! ## Record Normalizer (retrieve_plotdata.rs, `get_attribute_values_str`
lines 36-58) -/

/-- Embedding of the DynamoDB `AttributeValue` tagged scalar.  The source only
distinguishes the string tag `S`, the numeric tag `N` (whose payload is also a
digit string), the map tag `M` (used for the `"data"` attribute), and "any
other tag"; `Bl` and `L` stand in for the remaining tags. -/
inductive AttributeValue where
  | S (s : String)
  | N (s : String)
  | M (m : List (String × AttributeValue))
  | Bl (b : Bool)
  | L (l : List AttributeValue)

/-- Embedding of `AttributeValue::is_s`. -/
def AttributeValue.is_s : AttributeValue → Bool
  | .S _ => true
  | _ => false

/-- Embedding of `AttributeValue::is_n`. -/
def AttributeValue.is_n : AttributeValue → Bool
  | .N _ => true
  | _ => false

/-- Embedding of `AttributeValue::as_m` (`Ok` on the map variant, `Err`
otherwise); the orchestrator maps the error to `"datetime conversion error."`. -/
def AttributeValue.as_m : AttributeValue → Except String (List (String × AttributeValue))
  | .M m => Except.ok m
  | _ => Except.error "datetime conversion error."

/-- One DynamoDB item: a map from attribute names to attribute values,
embedded as an association list with unique keys (`HashMap` lookup is
`List.lookup`). -/
abbrev Item := List (String × AttributeValue)

/-- Embedding of `get_attribute_values_str`: a present `S`- or `N`-tagged
attribute yields its payload string, any other present tag is an error, an
absent attribute yields `none` without error.  The guard-plus-`as_s`/`as_n`
chain of the source cannot fail on the guarded variant, so it reduces to this
match. -/
def get_attribute_values_str (item : Item) (name : String) :
    Except String (Option String) :=
  match item.lookup name with
  | some (.S s) => Except.ok (some s)
  | some (.N s) => Except.ok (some s)
  | some _ => Except.error "not of type S or N"
  | none => Except.ok none

/-- C9: the Record Normalizer errs exactly on a present attribute whose tag is
neither string nor numeric; a present `S`- or `N`-tagged attribute yields its
string payload and an absent attribute yields `none` without error. -/
theorem get_attribute_values_str_contract (item : Item) (name : String) :
    (∀ s, item.lookup name = some (.S s) →
        get_attribute_values_str item name = Except.ok (some s)) ∧
    (∀ s, item.lookup name = some (.N s) →
        get_attribute_values_str item name = Except.ok (some s)) ∧
    (item.lookup name = none → get_attribute_values_str item name = Except.ok none) ∧
    ((∃ e, get_attribute_values_str item name = Except.error e) ↔
      ∃ av, item.lookup name = some av ∧ av.is_s = false ∧ av.is_n = false) := by
  refine ⟨?_, ?_, ?_, ?_⟩
  · intro s h
    simp [get_attribute_values_str, h]
  · intro s h
    simp [get_attribute_values_str, h]
  · intro h
    simp [get_attribute_values_str, h]
  · unfold get_attribute_values_str
    cases h : item.lookup name with
    | none => simp
    | some av =>
        cases av <;>
          simp [AttributeValue.is_s, AttributeValue.is_n]

/-- Witness for C9: a string attribute, a numeric attribute, an absent
attribute and a boolean attribute, each at its concrete item. -/
theorem get_attribute_values_str_contract_witness :
    get_attribute_values_str [("a", AttributeValue.S "v")] "a" = Except.ok (some "v") ∧
    get_attribute_values_str [("a", AttributeValue.N "42")] "a" = Except.ok (some "42") ∧
    get_attribute_values_str [("a", AttributeValue.S "v")] "b" = Except.ok none ∧
    (∃ e, get_attribute_values_str [("a", AttributeValue.Bl true)] "a" = Except.error e) :=
  ⟨(get_attribute_values_str_contract [("a", AttributeValue.S "v")] "a").1 "v" rfl,
   (get_attribute_values_str_contract [("a", AttributeValue.N "42")] "a").2.1 "42" rfl,
   (get_attribute_values_str_contract [("a", AttributeValue.S "v")] "b").2.2.1 rfl,
   (get_attribute_values_str_contract [("a", AttributeValue.Bl true)] "a").2.2.2.mpr
     ⟨AttributeValue.Bl true, rfl, rfl, rfl⟩⟩

/-! ## Timestamp parsing (retrieve_plotdata.rs, `parse_iso8601_to_jst`
lines 75-80)

The source delegates to `chrono::DateTime::parse_from_rfc3339`.  The embedding
implements that grammar — `YYYY-MM-DDTHH:MM:SS[.frac](Z|±HH:MM)` with calendar
validation — and returns the instant as epoch seconds.  (Chrono additionally
accepts a leap second `60`; no claim depends on that corner of the grammar.)
-/

/-- Take exactly `n` decimal digits off the front, returning their value. -/
def takeDigits (n : Nat) (cs : List Char) : Option (Nat × List Char) :=
  let pre := cs.take n
  if pre.length = n && pre.all Char.isDigit then
    some (pre.foldl (fun a c => 10 * a + (c.toNat - 48)) 0, cs.drop n)
  else none

/-- Consume one expected character. -/
def expectChar (c : Char) : List Char → Option (List Char)
  | d :: cs => if d = c then some cs else none
  | [] => none

/-- Consume the RFC 3339 date/time separator (`T` or `t`). -/
def expectDateTimeSep : List Char → Option (List Char)
  | c :: cs => if c = 'T' ∨ c = 't' then some cs else none
  | [] => none

/-- Consume an optional fractional-seconds part (`.` followed by at least one
digit); its value is irrelevant because the builder truncates to minutes. -/
def skipFraction : List Char → Option (List Char)
  | '.' :: cs =>
      if (cs.takeWhile Char.isDigit).isEmpty then none
      else some (cs.dropWhile Char.isDigit)
  | cs => some cs

/-- Consume a numeric UTC offset `HH:MM` and apply the sign. -/
def parseOffsetHM (sign : Int) (cs : List Char) : Option (Int × List Char) := do
  let (h, cs) ← takeDigits 2 cs
  let cs ← expectChar ':' cs
  let (m, cs) ← takeDigits 2 cs
  if h ≤ 23 && m ≤ 59 then some (sign * (3600 * h + 60 * m), cs) else none

/-- Consume an RFC 3339 UTC offset: `Z`, `z`, `+HH:MM` or `-HH:MM`. -/
def parseOffset : List Char → Option (Int × List Char)
  | 'Z' :: cs => some (0, cs)
  | 'z' :: cs => some (0, cs)
  | '+' :: cs => parseOffsetHM 1 cs
  | '-' :: cs => parseOffsetHM (-1) cs
  | _ => none

/-- Proleptic-Gregorian leap-year test. -/
def isLeapYear (y : Int) : Bool := (y % 4 == 0 && y % 100 != 0) || y % 400 == 0

/-- Days in a month of the proleptic Gregorian calendar. -/
def daysInMonth (y : Int) (m : Nat) : Nat :=
  if m = 2 then (if isLeapYear y then 29 else 28)
  else if m = 4 ∨ m = 6 ∨ m = 9 ∨ m = 11 then 30 else 31

/-- Days from the epoch 1970-01-01 to the civil date `y-m-d` (the standard
era-based conversion; Lean `Int` division by the positive constants is floor
division). -/
def daysFromCivil (y m d : Int) : Int :=
  let y2 := if m ≤ 2 then y - 1 else y
  let era := y2 / 400
  let yoe := y2 - era * 400
  let mp := (m + 9) % 12
  let doy := (153 * mp + 2) / 5 + d - 1
  let doe := yoe * 365 + yoe / 4 - yoe / 100 + doy
  era * 146097 + doe - 719468

/-- Parse an RFC 3339 timestamp to epoch seconds. -/
def parse_rfc3339 (s : String) : Option Int := do
  let cs := s.data
  let (y, cs) ← takeDigits 4 cs
  let cs ← expectChar '-' cs
  let (mo, cs) ← takeDigits 2 cs
  let cs ← expectChar '-' cs
  let (d, cs) ← takeDigits 2 cs
  let cs ← expectDateTimeSep cs
  let (h, cs) ← takeDigits 2 cs
  let cs ← expectChar ':' cs
  let (mi, cs) ← takeDigits 2 cs
  let cs ← expectChar ':' cs
  let (sec, cs) ← takeDigits 2 cs
  let cs ← skipFraction cs
  let (off, cs) ← parseOffset cs
  if cs.isEmpty && 1 ≤ mo && mo ≤ 12 && 1 ≤ d && d ≤ daysInMonth y mo
      && h ≤ 23 && mi ≤ 59 && sec ≤ 59 then
    some (daysFromCivil y mo d * 86400 + 3600 * h + 60 * mi + sec - off)
  else none

/-- Embedding of `parse_iso8601_to_jst`: parse an RFC 3339 string and convert
to `Asia::Tokyo`.  The timezone conversion changes only the attached offset,
never the instant, so the embedding is the parsed instant; a parse failure is
`none` (the source propagates an error that the dataframe builder turns into a
warned null). -/
def parse_iso8601_to_jst (s : String) : Option Int := parse_rfc3339 s

/-! ## Table Builder (retrieve_plotdata.rs, `series_from_items` lines 61-72,
`time_sequential_dataframe` lines 83-148) -/

/-- Embedding of the seconds truncation of `time_sequential_dataframe` lines
125-137: subtract the JST local second-of-minute (`naive_local().second()`)
from the instant; nanoseconds are zero at second resolution. -/
def truncateToMinute (t : Int) : Int := t - (t + jstOffset) % 60

/-- Model of the non-strict polars cast `Utf8 -> UInt32`: an all-digit string
in `u32` range parses, anything else becomes null. -/
def castUInt32 (s : String) : Option Nat :=
  match s.toNat? with
  | some n => if n < 4294967296 then some n else none
  | none => none

/-- Value of a digit string. -/
def digitsVal (cs : List Char) : Nat := cs.foldl (fun a c => 10 * a + (c.toNat - 48)) 0

/-- Model of the non-strict polars cast `Utf8 -> Float64` on the decimal
literals the store produces: optional sign, integer digits, optional
fractional digits, exactly valued as a rational; anything else becomes null. -/
def castFloat64 (s : String) : Option Rat :=
  let signedTail : Rat × List Char :=
    match s.data with
    | '-' :: rest => (-1, rest)
    | '+' :: rest => (1, rest)
    | rest => (1, rest)
  let sign := signedTail.1
  let cs := signedTail.2
  let intPart := cs.takeWhile Char.isDigit
  let rest := cs.dropWhile Char.isDigit
  if intPart.isEmpty then none
  else
    match rest with
    | [] => some (sign * digitsVal intPart)
    | '.' :: fr =>
        if (fr.takeWhile Char.isDigit).isEmpty ∨ ¬ (fr.dropWhile Char.isDigit).isEmpty then
          none
        else
          some (sign * ((digitsVal intPart : Rat)
            + (digitsVal (fr.takeWhile Char.isDigit) : Rat) / (10 : Rat) ^ (fr.takeWhile Char.isDigit).length))
    | _ => none

/-- Embedding of the seven-column polars `DataFrame` built by
`time_sequential_dataframe`: columns are position-aligned nullable sequences
and the fixed schema order `measured_at, sensor_id, message_id, cumlative_kwh,
instant_watt, instant_ampere_R, instant_ampere_T` is the field order.  The
final `measured_at` column holds the parsed minute-truncated JST instants; the
source stores their RFC 3339 renderings, an injective representation change. -/
structure Frame where
  measured_at : List (Option Int)
  sensor_id : List (Option String)
  message_id : List (Option Nat)
  cumlative_kwh : List (Option Rat)
  instant_watt : List (Option Rat)
  instant_ampere_R : List (Option Rat)
  instant_ampere_T : List (Option Rat)
  deriving Repr, DecidableEq

/-- Embedding of the per-column half of `series_from_items`: the optional raw
strings of one attribute across the item batch; `collect::<Result<Vec<_>>>`
propagates the first normalizer error, embedded by structural recursion. -/
def series_str (items : List Item) (name : String) : Except String (List (Option String)) :=
  match items with
  | [] => Except.ok []
  | hm :: rest =>
    match get_attribute_values_str hm name, series_str rest name with
    | Except.ok v, Except.ok vs => Except.ok (v :: vs)
    | Except.error e, _ => Except.error e
    | Except.ok _, Except.error e => Except.error e

/-- Embedding of `time_sequential_dataframe`: build the seven columns with
`series_from_items` (raw strings cast non-strictly to the schema types), then
replace `measured_at` by the re-parsed, minute-truncated timestamps — a parse
failure is warned and becomes null, the row itself is kept. -/
def time_sequential_dataframe (items : List Item) : Except String Frame :=
  match series_str items "measured_at" with
  | Except.error e => Except.error e
  | Except.ok measured =>
  match series_str items "sensor_id" with
  | Except.error e => Except.error e
  | Except.ok sensor =>
  match series_str items "message_id" with
  | Except.error e => Except.error e
  | Except.ok msg =>
  match series_str items "cumlative_kwh" with
  | Except.error e => Except.error e
  | Except.ok kwh =>
  match series_str items "instant_watt" with
  | Except.error e => Except.error e
  | Except.ok watt =>
  match series_str items "instant_ampere_R" with
  | Except.error e => Except.error e
  | Except.ok ampR =>
  match series_str items "instant_ampere_T" with
  | Except.error e => Except.error e
  | Except.ok ampT =>
  Except.ok
    { measured_at :=
        measured.map (fun o => (o.bind parse_iso8601_to_jst).map truncateToMinute),
      sensor_id := sensor,
      message_id := msg.map (fun o => o.bind castUInt32),
      cumlative_kwh := kwh.map (fun o => o.bind castFloat64),
      instant_watt := watt.map (fun o => o.bind castFloat64),
      instant_ampere_R := ampR.map (fun o => o.bind castFloat64),
      instant_ampere_T := ampT.map (fun o => o.bind castFloat64) }

/-- Helper: a successfully normalized column has one entry per input item. -/
theorem series_str_length (items : List Item) (name : String) (r : List (Option String))
    (h : series_str items name = Except.ok r) : r.length = items.length := by
  induction items generalizing r with
  | nil =>
      unfold series_str at h
      cases h
      rfl
  | cons a t ih =>
      unfold series_str at h
      cases h1 : get_attribute_values_str a name <;> rw [h1] at h
      · cases h
      · cases h2 : series_str t name <;> rw [h2] at h
        · cases h
        · cases h
          simp [ih _ h2]

/-- C1 counterexample: on the one-record batch whose raw timestamp string is
`"garbage"`, the builder succeeds and admits the row with a null
`measured_at` — the row is not dropped, so the claimed row count
(batch size minus unparseable rows, here 0) and the claimed no-null invariant
both fail. -/
theorem tsd_retains_unparseable_row :
    ¬ ∀ f : Frame,
        time_sequential_dataframe [[("measured_at", AttributeValue.S "garbage")]]
            = Except.ok f →
          f.measured_at.length = 0 ∧ ∀ o ∈ f.measured_at, o ≠ none := by
  intro hclaim
  rcases hclaim
      { measured_at := [none], sensor_id := [none], message_id := [none],
        cumlative_kwh := [none], instant_watt := [none],
        instant_ampere_R := [none], instant_ampere_T := [none] } rfl with ⟨hlen, _⟩
  exact absurd hlen (by decide)

/-- C1 (amended): the builder retains every input row — a row whose raw
timestamp is absent or fails to parse keeps a null `measured_at` (after a
warning) instead of being dropped — so every column of a successfully built
Table has exactly one entry per input record, and the `measured_at` column is
exactly the per-row optional parse (truncated to the minute) of the raw
timestamp strings. -/
theorem tsd_row_count_and_null_retention (items : List Item) (f : Frame)
    (h : time_sequential_dataframe items = Except.ok f) :
    f.measured_at.length = items.length ∧
    f.sensor_id.length = items.length ∧
    f.message_id.length = items.length ∧
    f.cumlative_kwh.length = items.length ∧
    f.instant_watt.length = items.length ∧
    f.instant_ampere_R.length = items.length ∧
    f.instant_ampere_T.length = items.length ∧
    ∃ raw, series_str items "measured_at" = Except.ok raw ∧
      f.measured_at = raw.map (fun o => (o.bind parse_iso8601_to_jst).map truncateToMinute) := by
  unfold time_sequential_dataframe at h
  cases h1 : series_str items "measured_at" <;> rw [h1] at h
  · cases h
  case ok raw =>
  cases h2 : series_str items "sensor_id" <;> rw [h2] at h
  · cases h
  case ok sensor =>
  cases h3 : series_str items "message_id" <;> rw [h3] at h
  · cases h
  case ok msg =>
  cases h4 : series_str items "cumlative_kwh" <;> rw [h4] at h
  · cases h
  case ok kwh =>
  cases h5 : series_str items "instant_watt" <;> rw [h5] at h
  · cases h
  case ok watt =>
  cases h6 : series_str items "instant_ampere_R" <;> rw [h6] at h
  · cases h
  case ok ampR =>
  cases h7 : series_str items "instant_ampere_T" <;> rw [h7] at h
  · cases h
  case ok ampT =>
  cases h
  refine ⟨?_, ?_, ?_, ?_, ?_, ?_, ?_, raw, rfl, rfl⟩
  · simp [series_str_length items _ raw h1]
  · simp [series_str_length items _ sensor h2]
  · simp [series_str_length items _ msg h3]
  · simp [series_str_length items _ kwh h4]
  · simp [series_str_length items _ watt h5]
  · simp [series_str_length items _ ampR h6]
  · simp [series_str_length items _ ampT h7]

/-- Witness for C1 (amended) on a concrete two-record batch, one parseable and
one unparseable timestamp: both rows are retained. -/
theorem tsd_row_count_and_null_retention_witness :
    (Frame.mk [some 1672532100, none] [none, none] [none, none] [none, none]
        [none, none] [none, none] [none, none]).measured_at.length =
      ([[("measured_at", AttributeValue.S "2023-01-01T09:15:30+09:00")],
        [("measured_at", AttributeValue.S "garbage")]] : List Item).length :=
  (tsd_row_count_and_null_retention
    [[("measured_at", AttributeValue.S "2023-01-01T09:15:30+09:00")],
     [("measured_at", AttributeValue.S "garbage")]]
    (Frame.mk [some 1672532100, none] [none, none] [none, none] [none, none]
      [none, none] [none, none] [none, none])
    rfl).1

/-! ## Axis Range Deriver and panel renderers (plotcharts.rs,
`as_datetime_vector` lines 95-134, `as_values_vector` lines 137-156,
`plot_instant_watt` lines 218-260, `plot_instant_ampere` lines 263-356)

The chart input series come from the Series Extractor: `measured_at` entries
are the strptime-parsed UTC instants, value entries the `f64` measurements,
both nullable. -/

/-- Embedding of `collect::<Option<Vec<_>>>` over the datetime series: all
entries must be non-null. -/
def allSome : List (Option Int) → Option (List Int)
  | [] => some []
  | none :: _ => none
  | some t :: rest => (allSome rest).map (fun l => t :: l)

/-- Embedding of `as_datetime_vector` at the fixed timezone `Asia::Tokyo`:
fail on any null, convert every UTC instant to naive local time
(`from_utc_datetime`, +9 h), and return the local times together with the
range from the minimum floored to its local day start up to the maximum's
local day start plus one day. -/
def as_datetime_vector (series : List (Option Int)) :
    Except String (List Int × (Int × Int)) :=
  match allSome series with
  | none => Except.error "datetime parse error"
  | some utcs =>
    let locals := utcs.map (fun t => t + jstOffset)
    match locals.min?, locals.max? with
    | some mn, some mx =>
        Except.ok (locals,
          (secondsPerDay * (mn / secondsPerDay),
           secondsPerDay * (mx / secondsPerDay) + secondsPerDay))
    | _, _ => Except.error "NoData datetime"

/-- Embedding of `AnyValue::try_extract::<f64>()`: a null entry cannot be
extracted into a number and is an error. -/
def try_extract : Option Rat → Except String Rat
  | some v => Except.ok v
  | none => Except.error "could not extract number"

/-- Embedding of the `collect::<Result<Vec<f64>, _>>` over `try_extract` in
`as_values_vector`. -/
def extract_values : List (Option Rat) → Except String (List Rat)
  | [] => Except.ok []
  | o :: rest =>
    match try_extract o, extract_values rest with
    | Except.ok v, Except.ok vs => Except.ok (v :: vs)
    | Except.error e, _ => Except.error e
    | Except.ok _, Except.error e => Except.error e

/-- Embedding of `as_values_vector`: extract every value — failing on any
null — then return the values with their `min..max` range (`NoData` when
empty; `total_cmp` on the embedded values is the rational order). -/
def as_values_vector (series : List (Option Rat)) :
    Except String (List Rat × (Rat × Rat)) :=
  match extract_values series with
  | Except.error e => Except.error e
  | Except.ok values =>
    match values.max?, values.min? with
    | some mx, some mn => Except.ok (values, (mn, mx))
    | _, _ => Except.error "NoData value"

/-- One rendered rectangle, as the two corners passed to `Rectangle::new`:
x span in naive local seconds, y span in measurement units. -/
structure Rect where
  x0 : Int
  x1 : Int
  y0 : Rat
  y1 : Rat
  deriving Repr, DecidableEq

/-- Result of `plot_instant_watt`: the drawn bars and the two axis domains of
`build_cartesian_2d`. -/
structure WattChart where
  rects : List Rect
  timeRange : Int × Int
  valueRange : Rat × Rat
  deriving Repr, DecidableEq

/-- Embedding of `plot_instant_watt`: axis domains from the two derivers, the
value domain's lower bound forced to `min(lower, 0)`, and one 1-minute-wide
bar `[t, t+60) × [0, value]` per observation. -/
def plot_instant_watt (measured_at : List (Option Int))
    (instant_watt : List (Option Rat)) : Except String WattChart :=
  match as_datetime_vector measured_at with
  | Except.error e => Except.error e
  | Except.ok (datetimes, rangeDt) =>
  match as_values_vector instant_watt with
  | Except.error e => Except.error e
  | Except.ok (values, rangeV) =>
    Except.ok
      { rects := (datetimes.zip values).map (fun p => ⟨p.1, p.1 + 60, 0, p.2⟩),
        timeRange := rangeDt,
        valueRange := (min rangeV.1 0, rangeV.2) }

/-- Result of `plot_instant_ampere`: the R-phase bars, the stacked T-phase
bars and the two axis domains. -/
structure AmpereChart where
  rRects : List Rect
  tRects : List Rect
  timeRange : Int × Int
  valueRange : Rat × Rat
  deriving Repr, DecidableEq

/-- Embedding of `plot_instant_ampere`: extract the R and T series (so a null
in either series is an error), derive the value domain from the per-row sums
`R + T` with the lower bound forced to `min(lower, 0)`, and draw per row the
R bar `[t, t+60) × [0, R]` and the stacked T bar `[t, t+60) × [R, R+T]`. -/
def plot_instant_ampere (measured_at : List (Option Int))
    (ampere_r ampere_t : List (Option Rat)) : Except String AmpereChart :=
  match as_datetime_vector measured_at with
  | Except.error e => Except.error e
  | Except.ok (datetimes, rangeDt) =>
  match as_values_vector ampere_r with
  | Except.error e => Except.error e
  | Except.ok (values_r, _) =>
  match as_values_vector ampere_t with
  | Except.error e => Except.error e
  | Except.ok (values_t, _) =>
  let accumlated := (values_r.zip values_t).map (fun p => p.1 + p.2)
  match accumlated.max?, accumlated.min? with
  | some mx, some mn =>
      let dataset := datetimes.zip (values_r.zip values_t)
      Except.ok
        { rRects := dataset.map (fun p => ⟨p.1, p.1 + 60, 0, p.2.1⟩),
          tRects := dataset.map (fun p => ⟨p.1, p.1 + 60, p.2.1, p.2.1 + p.2.2⟩),
          timeRange := rangeDt,
          valueRange := (min mn 0, mx) }
  | _, _ => Except.error "NoData datetime"

/-- C3 (code bug, evaluated at the failing input): a single row at
2023-01-01T09:15+09:00 with R-phase 2 A and a null T-phase — exactly what the
left join produces when the T-phase is absent at that timestamp — makes
`plot_instant_ampere` abort with the `try_extract` error instead of rendering
the R rectangle and omitting only the T rectangle; with the T-phase present
the same row renders both rectangles. -/
theorem plot_instant_ampere_aborts_on_null_t :
    plot_instant_ampere [some 1672532100] [some 2] [none] =
      Except.error "could not extract number" ∧
    plot_instant_ampere [some 1672532100] [some 2] [some 1] =
      Except.ok
        { rRects := [⟨1672564500, 1672564560, 0, 2⟩],
          tRects := [⟨1672564500, 1672564560, 2, 3⟩],
          timeRange := (1672531200, 1672617600),
          valueRange := (0, 3) } := by
  constructor
  · rfl
  · simp only [plot_instant_ampere, as_datetime_vector, allSome, as_values_vector,
      extract_values, try_extract, List.min?, List.max?, jstOffset, secondsPerDay,
      List.map, List.zip, List.zipWith, List.foldl, Option.map]
    norm_num

/-- Helper: an all-non-null datetime series collects to its values. -/
theorem allSome_map_some (l : List Int) : allSome (l.map some) = some l := by
  induction l with
  | nil => rfl
  | cons a t ih => simp [allSome, ih]

/-- Helper: an all-non-null value series extracts to its values. -/
theorem extract_values_map_some (l : List Rat) :
    extract_values (l.map some) = Except.ok l := by
  induction l with
  | nil => rfl
  | cons a t ih => simp [extract_values, try_extract, ih]

/-- Helper: `as_datetime_vector` on a non-empty all-non-null series returns
the local times and the outward day-aligned range of their min and max. -/
theorem as_datetime_vector_cons (t0 : Int) (ts : List Int) :
    as_datetime_vector ((t0 :: ts).map some) =
      Except.ok ((t0 :: ts).map (fun t => t + jstOffset),
        (secondsPerDay *
            (((ts.map (fun t => t + jstOffset)).foldl min (t0 + jstOffset)) / secondsPerDay),
         secondsPerDay *
            (((ts.map (fun t => t + jstOffset)).foldl max (t0 + jstOffset)) / secondsPerDay)
           + secondsPerDay)) := by
  simp [as_datetime_vector, allSome, allSome_map_some, List.min?, List.max?]

/-- Helper: `as_values_vector` on a non-empty all-non-null series returns the
values and their min/max range. -/
theorem as_values_vector_cons (v0 : Rat) (vs : List Rat) :
    as_values_vector ((v0 :: vs).map some) =
      Except.ok (v0 :: vs, (vs.foldl min v0, vs.foldl max v0)) := by
  have h := extract_values_map_some (v0 :: vs)
  simp only [List.map_cons] at h
  simp [as_values_vector, h, List.min?, List.max?]

/-- C8: for every non-empty all-non-null series, the datetime domain is the
local-time minimum floored to its local midnight up to the local-time maximum's
local midnight plus one day, and the power and current panels force the value
domain's lower bound to `min(min(values), 0)` (for the current panel the
values are the stacked per-row sums `R + T`); in particular the series
`[(2023-01-01T09:15+09:00, 3.2), (09:45, 5.1)]` yields the datetime domain
`[2023-01-01T00:00, 2023-01-02T00:00)` (local seconds 1672531200 to
1672617600) and the power value domain `[0, 5.1]`. -/
theorem axis_range_deriver_spec (t0 : Int) (ts : List Int) (v0 : Rat) (vs : List Rat)
    (r0 : Rat) (rs : List Rat) (w0 : Rat) (ws : List Rat) :
    (∃ mn mx, ((t0 :: ts).map (fun t => t + jstOffset)).min? = some mn ∧
       ((t0 :: ts).map (fun t => t + jstOffset)).max? = some mx ∧
       as_datetime_vector ((t0 :: ts).map some) =
         Except.ok ((t0 :: ts).map (fun t => t + jstOffset),
           (secondsPerDay * (mn / secondsPerDay),
            secondsPerDay * (mx / secondsPerDay) + secondsPerDay))) ∧
    (∃ vmn vmx c, (v0 :: vs).min? = some vmn ∧ (v0 :: vs).max? = some vmx ∧
       plot_instant_watt ((t0 :: ts).map some) ((v0 :: vs).map some) = Except.ok c ∧
       c.valueRange = (min vmn 0, vmx) ∧
       as_datetime_vector ((t0 :: ts).map some) =
         Except.ok ((t0 :: ts).map (fun t => t + jstOffset), c.timeRange)) ∧
    (∃ amn amx c,
       ((r0 + w0) :: (rs.zip ws).map (fun p => p.1 + p.2)).min? = some amn ∧
       ((r0 + w0) :: (rs.zip ws).map (fun p => p.1 + p.2)).max? = some amx ∧
       plot_instant_ampere ((t0 :: ts).map some) ((r0 :: rs).map some)
           ((w0 :: ws).map some) = Except.ok c ∧
       c.valueRange = (min amn 0, amx)) ∧
    as_datetime_vector [some 1672532100, some 1672533900] =
      Except.ok ([1672564500, 1672566300], (1672531200, 1672617600)) ∧
    (∃ c, plot_instant_watt [some 1672532100, some 1672533900]
        [some (16 / 5 : Rat), some (51 / 10 : Rat)] = Except.ok c ∧
       c.valueRange = (0, 51 / 10) ∧ c.timeRange = (1672531200, 1672617600)) := by
  have hd := as_datetime_vector_cons t0 ts
  have hv := as_values_vector_cons v0 vs
  have hr := as_values_vector_cons r0 rs
  have hw := as_values_vector_cons w0 ws
  simp only [List.map_cons] at hd hv hr hw
  have hwatt : plot_instant_watt ((t0 :: ts).map some) ((v0 :: vs).map some) =
      Except.ok
        { rects := (((t0 :: ts).map (fun t => t + jstOffset)).zip (v0 :: vs)).map
            (fun p => ⟨p.1, p.1 + 60, 0, p.2⟩),
          timeRange := (secondsPerDay *
              (((ts.map (fun t => t + jstOffset)).foldl min (t0 + jstOffset)) / secondsPerDay),
            secondsPerDay *
              (((ts.map (fun t => t + jstOffset)).foldl max (t0 + jstOffset)) / secondsPerDay)
              + secondsPerDay),
          valueRange := (min (vs.foldl min v0) 0, vs.foldl max v0) } := by
    simp [plot_instant_watt, hd, hv]
  have hamp : plot_instant_ampere ((t0 :: ts).map some) ((r0 :: rs).map some)
        ((w0 :: ws).map some) =
      Except.ok
        { rRects := (((t0 :: ts).map (fun t => t + jstOffset)).zip
              ((r0 :: rs).zip (w0 :: ws))).map (fun p => ⟨p.1, p.1 + 60, 0, p.2.1⟩),
          tRects := (((t0 :: ts).map (fun t => t + jstOffset)).zip
              ((r0 :: rs).zip (w0 :: ws))).map
              (fun p => ⟨p.1, p.1 + 60, p.2.1, p.2.1 + p.2.2⟩),
          timeRange := (secondsPerDay *
              (((ts.map (fun t => t + jstOffset)).foldl min (t0 + jstOffset)) / secondsPerDay),
            secondsPerDay *
              (((ts.map (fun t => t + jstOffset)).foldl max (t0 + jstOffset)) / secondsPerDay)
              + secondsPerDay),
          valueRange := (min (((rs.zip ws).map (fun p => p.1 + p.2)).foldl min (r0 + w0)) 0,
            ((rs.zip ws).map (fun p => p.1 + p.2)).foldl max (r0 + w0)) } := by
    simp [plot_instant_ampere, hd, hr, hw, List.min?, List.max?]
  refine ⟨⟨_, _, rfl, rfl, as_datetime_vector_cons t0 ts⟩, ?_, ?_, ?_, ?_⟩
  · exact ⟨vs.foldl min v0, vs.foldl max v0, _, rfl, rfl, hwatt, rfl,
      as_datetime_vector_cons t0 ts⟩
  · exact ⟨((rs.zip ws).map (fun p => p.1 + p.2)).foldl min (r0 + w0),
      ((rs.zip ws).map (fun p => p.1 + p.2)).foldl max (r0 + w0), _, rfl, rfl, hamp, rfl⟩
  · norm_num [as_datetime_vector, allSome, List.min?, List.max?, jstOffset, secondsPerDay]
  · refine ⟨_, rfl, ?_, ?_⟩ <;>
      norm_num [plot_instant_watt, as_datetime_vector, allSome, as_values_vector,
        extract_values, try_extract, List.min?, List.max?, jstOffset, secondsPerDay]

/-! ## Retrieval Orchestrator (retrieve_plotdata.rs, `get_items_from_table`
lines 179-210, `run` lines 263-339)

The remote store is embedded as a function from a window start instant to the
query response for that window's range query: `none` models a response
without a result set, `some rows` a result set whose rows are the `"data"`
attribute values.  The file system is a partial map from window start
instants to written frames — the `%Y-%m-%dT%H%Mto%H%M.csv` file name is
determined injectively by the window start.  Fetches and throttle sleeps are
logged. -/

/-- Embedding of the `"data"`-extraction over the returned rows: each row's
`"data"` attribute must be a map (`as_m`), the first failure aborting the
collect. -/
def items_data : List AttributeValue → Except String (List Item)
  | [] => Except.ok []
  | av :: rest =>
    match av.as_m, items_data rest with
    | Except.ok hm, Except.ok hms => Except.ok (hm :: hms)
    | Except.error e, _ => Except.error e
    | Except.ok _, Except.error e => Except.error e

/-- Embedding of `get_items_from_table` for one window: a response with no
result set (`results.items == None`) yields an empty batch, not an error. -/
def get_items_from_table (response : Option (List AttributeValue)) :
    Except String (List Item) :=
  match response with
  | some rows => items_data rows
  | none => Except.ok []

/-- State of the orchestrator loop in `run`: the output files, the
chronological log of issued range queries, the log of throttle sleeps (in
milliseconds) and the `loop_counter`. -/
structure LoopState where
  files : Int → Option Frame
  fetchLog : List Int
  sleepLog : List Int
  loopCounter : Int

/-- Embedding of `File::create` plus `CsvWriter::finish`: (over)write one
file, leaving every other file untouched. -/
def writeFile (fs : Int → Option Frame) (w : Int) (df : Frame) : Int → Option Frame :=
  fun k => if k = w then some df else fs k

/-- Embedding of the fetched-window body of `run` (lines 317-328): fetch the
window's batch (logging the query); an empty batch is reported and writes no
file, otherwise the dataframe is built and written. -/
def processFetched (db : Int → Option (List AttributeValue)) (st : LoopState) (w : Int) :
    Except String LoopState :=
  match get_items_from_table (db w) with
  | Except.error e => Except.error e
  | Except.ok items =>
    let st1 : LoopState := { st with fetchLog := st.fetchLog ++ [w] }
    if items.isEmpty then Except.ok st1
    else
      match time_sequential_dataframe items with
      | Except.error e => Except.error e
      | Except.ok df => Except.ok { st1 with files := writeFile st1.files w df }

/-- Embedding of the window loop of `run` (lines 284-336): stop once the lap
counter reaches the lap limit; skip an already-materialized window when
overwrite is off (`continue`: no fetch, no write, no counter change, no
sleep); otherwise process the fetch, bump the lap counter and sleep per the
throttle policy. -/
def runLoop (db : Int → Option (List AttributeValue)) (throttle lapLimits : Int)
    (overwrite : Bool) : List Int → LoopState → Except String LoopState
  | [], st => Except.ok st
  | w :: rest, st =>
    if lapLimits ≤ st.loopCounter then Except.ok st
    else if (st.files w).isSome = true ∧ overwrite = false then
      runLoop db throttle lapLimits overwrite rest st
    else
      match processFetched db st w with
      | Except.error e => Except.error e
      | Except.ok st2 =>
        runLoop db throttle lapLimits overwrite rest
          { st2 with loopCounter := st2.loopCounter + 1,
                     sleepLog := st2.sleepLog ++ [millis throttle] }

/-- Embedding of `run` minus the transport setup: plan the daily windows from
the first/last stored record timestamps and drive the loop from a zero
counter and empty logs over the given initial file system. -/
def run (db : Int → Option (List AttributeValue)) (firstDt lastDt : Int)
    (throttle lapLimits : Int) (overwrite : Bool) (fs : Int → Option Frame) :
    Except String LoopState :=
  runLoop db throttle lapLimits overwrite
    (dailies (jst_datetime_range firstDt lastDt).1 (jst_datetime_range firstDt lastDt).2)
    { files := fs, fetchLog := [], sleepLog := [], loopCounter := 0 }

/-- Helper: a successful fetched-window step appends the window to the fetch
log, keeps the counter and sleep log, and changes no file of another window. -/
theorem processFetched_ok (db : Int → Option (List AttributeValue)) (st : LoopState)
    (w : Int) (st1 : LoopState) (h : processFetched db st w = Except.ok st1) :
    st1.fetchLog = st.fetchLog ++ [w] ∧ st1.loopCounter = st.loopCounter ∧
    st1.sleepLog = st.sleepLog ∧ ∀ k, k ≠ w → st1.files k = st.files k := by
  unfold processFetched at h
  cases hg : get_items_from_table (db w) <;> rw [hg] at h
  · cases h
  case ok items =>
  by_cases he : items.isEmpty
  · simp only [if_pos he] at h
    cases h
    exact ⟨rfl, rfl, rfl, fun k _ => rfl⟩
  · simp only [if_neg he] at h
    cases hd : time_sequential_dataframe items <;> rw [hd] at h
    · cases h
    · cases h
      refine ⟨rfl, rfl, rfl, fun k hk => ?_⟩
      simp [writeFile, hk]

/-- C6 (amended): with overwrite off, a window whose output file exists is
skipped without fetch and without write, so any run — in particular the
second of two consecutive runs — never fetches a window whose file exists at
its start and leaves every pre-existing output file unchanged.  (Only windows
that produced no file, because their batch was empty or the lap limit cut
them off, are fetched again on a re-run.) -/
theorem runLoop_preserves_existing_files (db : Int → Option (List AttributeValue))
    (throttle lapLimits : Int) (windows : List Int) (st st2 : LoopState)
    (k : Int) (df : Frame)
    (hrun : runLoop db throttle lapLimits false windows st = Except.ok st2)
    (hk : st.files k = some df) :
    st2.files k = some df ∧ (k ∉ st.fetchLog → k ∉ st2.fetchLog) := by
  induction windows generalizing st with
  | nil =>
      cases hrun
      exact ⟨hk, fun h => h⟩
  | cons w rest ih =>
      rw [runLoop] at hrun
      by_cases hbreak : lapLimits ≤ st.loopCounter
      · rw [if_pos hbreak] at hrun
        cases hrun
        exact ⟨hk, fun h => h⟩
      · rw [if_neg hbreak] at hrun
        by_cases hskip : (st.files w).isSome = true ∧ false = false
        · rw [if_pos hskip] at hrun
          exact ih st hrun hk
        · rw [if_neg hskip] at hrun
          have hwnone : st.files w = none := by
            rcases h : st.files w with _ | f
            · rfl
            · exact absurd ⟨by simp [h], rfl⟩ hskip
          have hkw : k ≠ w := fun he => by rw [he, hwnone] at hk; cases hk
          cases hpf : processFetched db st w <;> rw [hpf] at hrun
          · cases hrun
          · rename_i st1
            obtain ⟨hf, _, _, hfiles⟩ := processFetched_ok db st w st1 hpf
            obtain ⟨h1, h2⟩ := ih _ hrun (by simpa [hfiles k hkw] using hk)
            refine ⟨h1, fun hnot => h2 ?_⟩
            simp only [hf, List.mem_append, List.mem_singleton]
            rintro (h | h)
            · exact hnot h
            · exact hkw h

/-- Witness for C6 (amended): one window whose file already exists is skipped,
its file surviving untouched and unfetched. -/
theorem runLoop_preserves_existing_files_witness :
    (LoopState.mk
        (fun k => if k = 0 then some (Frame.mk [] [] [] [] [] [] []) else none)
        [] [] 0).files 0 = some (Frame.mk [] [] [] [] [] [] []) ∧
    ((0 : Int) ∉ (LoopState.mk
        (fun k => if k = 0 then some (Frame.mk [] [] [] [] [] [] []) else none)
        [] [] 0).fetchLog →
     (0 : Int) ∉ (LoopState.mk
        (fun k => if k = 0 then some (Frame.mk [] [] [] [] [] [] []) else none)
        [] [] 0).fetchLog) :=
  runLoop_preserves_existing_files (fun _ => none) 50 10 [0]
    (LoopState.mk (fun k => if k = 0 then some (Frame.mk [] [] [] [] [] [] []) else none)
      [] [] 0)
    (LoopState.mk (fun k => if k = 0 then some (Frame.mk [] [] [] [] [] [] []) else none)
      [] [] 0)
    0 (Frame.mk [] [] [] [] [] [] []) rfl rfl

/-- C6 counterexample: with a single window whose fetch yields an empty batch,
no file is written, so a second run with overwrite off issues the same range
query again — a duplicate fetch on the second run. -/
theorem rerun_refetches_empty_window :
    ∃ st1 st2,
      run (fun _ => some []) 1672498800 1672498800 50 10 false (fun _ => none)
        = Except.ok st1 ∧
      st1.fetchLog = [1672498800] ∧
      run (fun _ => some []) 1672498800 1672498800 50 10 false st1.files
        = Except.ok st2 ∧
      st2.fetchLog = [1672498800] := by
  have hjr1 : (jst_datetime_range 1672498800 1672498800).1 = 1672498800 := by
    norm_num [jst_datetime_range, jstDayFloor, secondsPerDay, jstOffset]
  have hjr2 : (jst_datetime_range 1672498800 1672498800).2 = 1672585200 := by
    norm_num [jst_datetime_range, jstDayFloor, secondsPerDay, jstOffset]
  have hd : dailies 1672498800 1672585200 = [1672498800] := by
    rw [dailies]
    norm_num [secondsPerDay]
    rw [dailies]
    norm_num
  refine ⟨LoopState.mk (fun _ => none) [1672498800] [5000] 1,
          LoopState.mk (fun _ => none) [1672498800] [5000] 1, ?_, rfl, ?_, rfl⟩ <;>
    · unfold run
      rw [hjr1, hjr2, hd]
      rfl

/-- C7: a response without a result set yields an empty batch, not an error,
and a window whose fetched batch is empty is reported and passed over without
writing any file: the loop continues to the remaining windows with the files
unchanged, the fetch logged and the lap counter and throttle sleep applied. -/
theorem empty_batch_continues_without_write (db : Int → Option (List AttributeValue))
    (throttle lapLimits : Int) (overwrite : Bool) (w : Int) (rest : List Int)
    (st : LoopState)
    (hcount : st.loopCounter < lapLimits)
    (hns : ¬((st.files w).isSome = true ∧ overwrite = false))
    (hempty : get_items_from_table (db w) = Except.ok []) :
    get_items_from_table none = Except.ok ([] : List Item) ∧
    runLoop db throttle lapLimits overwrite (w :: rest) st =
      runLoop db throttle lapLimits overwrite rest
        { st with fetchLog := st.fetchLog ++ [w],
                  sleepLog := st.sleepLog ++ [millis throttle],
                  loopCounter := st.loopCounter + 1 } := by
  refine ⟨rfl, ?_⟩
  rw [runLoop, if_neg (not_le.mpr hcount), if_neg hns]
  unfold processFetched
  rw [hempty]
  rfl

/-- Witness for C7: a window whose remote response has no result set — an
empty batch by the missing-result-set rule — is passed over without writing. -/
theorem empty_batch_continues_without_write_witness :
    get_items_from_table none = Except.ok ([] : List Item) ∧
    runLoop (fun _ => none) 50 10 false [0] (LoopState.mk (fun _ => none) [] [] 0) =
      runLoop (fun _ => none) 50 10 false []
        (LoopState.mk (fun _ => none) [0] [5000] 1) :=
  empty_batch_continues_without_write (fun _ => none) 50 10 false 0 []
    (LoopState.mk (fun _ => none) [] [] 0) (by decide) (by decide) rfl

/-- C10: throughout any loop run the lap counter advances in lockstep with the
fetch log and the sleep log — one increment, one logged query and one
throttle sleep per fetched window, skipped windows touching none of them —
and the number of fetches is bounded by the lap limit minus the starting
counter (`max` guards a counter already at or past the limit). -/
theorem lap_counter_counts_fetches (db : Int → Option (List AttributeValue))
    (throttle lapLimits : Int) (overwrite : Bool) (windows : List Int)
    (st st2 : LoopState)
    (hrun : runLoop db throttle lapLimits overwrite windows st = Except.ok st2) :
    ∃ n : Nat,
      st2.fetchLog.length = st.fetchLog.length + n ∧
      st2.loopCounter = st.loopCounter + n ∧
      st2.sleepLog.length = st.sleepLog.length + n ∧
      (st.loopCounter + n : Int) ≤ max lapLimits st.loopCounter := by
  induction windows generalizing st with
  | nil =>
      cases hrun
      exact ⟨0, by simp, by simp, by simp, by simp⟩
  | cons w rest ih =>
      rw [runLoop] at hrun
      by_cases hbreak : lapLimits ≤ st.loopCounter
      · rw [if_pos hbreak] at hrun
        cases hrun
        exact ⟨0, by simp, by simp, by simp, by simp⟩
      · rw [if_neg hbreak] at hrun
        by_cases hskip : (st.files w).isSome = true ∧ overwrite = false
        · rw [if_pos hskip] at hrun
          exact ih st hrun
        · rw [if_neg hskip] at hrun
          cases hpf : processFetched db st w <;> rw [hpf] at hrun
          · cases hrun
          · rename_i st1
            obtain ⟨hf, hc, hs, _⟩ := processFetched_ok db st w st1 hpf
            obtain ⟨n, h1, h2, h3, h4⟩ := ih _ hrun
            simp only [hf, hc, hs, List.length_append, List.length_cons,
              List.length_nil] at h1 h2 h3 h4
            exact ⟨n + 1, by omega, by omega, by omega, by omega⟩

/-- Witness for C10: two windows under lap limit 1 — the first is fetched
(one counter bump, one logged query, one sleep), the second is cut off by the
limit. -/
theorem lap_counter_counts_fetches_witness :
    ∃ n : Nat,
      (LoopState.mk (fun _ => none) [0] [5000] 1).fetchLog.length =
        (LoopState.mk (fun _ => none) ([] : List Int) ([] : List Int) 0).fetchLog.length + n ∧
      (LoopState.mk (fun _ => none) [0] [5000] 1).loopCounter =
        (LoopState.mk (fun _ => none) ([] : List Int) ([] : List Int) 0).loopCounter + n ∧
      (LoopState.mk (fun _ => none) [0] [5000] 1).sleepLog.length =
        (LoopState.mk (fun _ => none) ([] : List Int) ([] : List Int) 0).sleepLog.length + n ∧
      ((LoopState.mk (fun _ => none) ([] : List Int) ([] : List Int) 0).loopCounter + n : Int) ≤
        max 1 (LoopState.mk (fun _ => none) ([] : List Int) ([] : List Int) 0).loopCounter :=
  lap_counter_counts_fetches (fun _ => none) 50 1 false [0, 86400]
    (LoopState.mk (fun _ => none) [] [] 0) (LoopState.mk (fun _ => none) [0] [5000] 1) rfl

end Wisun
